import Mathlib

/-!
Verification of the porg-liquidate backend core: a shallow embedding of the
pricing cache, portfolio valuation, liquidation planning/simulation and
transaction classification logic, with theorems about its invariants.

Numeric values that the source holds in JavaScript numbers (prices, balances,
USD values, scaled token amounts) are embedded as rationals; raw on-chain
amounts (integer strings handled with BigInt or parseFloat in the source) are
embedded as naturals; timestamps in milliseconds are embedded as integers.
-/

namespace Porg

/-! ## Data model (token.model.ts, portfolio.model.ts) -/

/-- Embeds the TokenInfo interface of token.model.ts: one valued holding of a
wallet.  The optional `icon` is embedded as a plain string, matching the
`tokenMetadata.icon || ""` use sites. -/
structure TokenInfo where
  symbol : String
  name : String
  mint : String
  decimals : ℕ
  balance : ℚ
  value : ℚ
  percentage : ℚ
  icon : String
  deriving DecidableEq, Repr

/-- Embeds the Portfolio interface of portfolio.model.ts. -/
structure Portfolio where
  totalValue : ℚ
  tokens : List TokenInfo
  deriving DecidableEq, Repr

/-- Embeds the TokenMetadata interface of token.model.ts. -/
structure TokenMetadata where
  symbol : String
  name : String
  icon : Option String
  decimals : ℕ
  deriving DecidableEq, Repr

/-! ## Price oracle (price-oracle.ts, bundled in wormhole.service.ts) -/

/-- Embeds one entry of the in-memory price cache
`tokenPriceCache: Record<string, { price: number; timestamp: number }>` and,
with the same shape, one row of the `token_prices` persistent table (whose
`updated_at` converts to a millisecond timestamp at the comparison site). -/
structure PriceCacheEntry where
  price : ℚ
  timestamp : ℤ
  deriving DecidableEq, Repr

/-- Embeds `CACHE_EXPIRATION = 5 * 60 * 1000` milliseconds. -/
def CACHE_EXPIRATION : ℤ := 5 * 60 * 1000

/-- Result of one `getTokenPrice` lookup, instrumented with whether the origin
price API (the `axios.get` call) was reached. -/
structure PriceLookupResult where
  price : ℚ
  originInvoked : Bool
  deriving DecidableEq, Repr

/-- Freshness test of the in-memory slot:
`tokenPriceCache[mint] && now - tokenPriceCache[mint].timestamp < CACHE_EXPIRATION`. -/
def memFresh (mem : Option PriceCacheEntry) (now : ℤ) : Bool :=
  match mem with
  | some e => now - e.timestamp < CACHE_EXPIRATION
  | none => false

/-- Freshness test of the persistent row:
`cachedPrice && !error && now - cacheTime < CACHE_EXPIRATION`.  A database
error and an absent row are embedded alike as `none`. -/
def dbFresh (db : Option PriceCacheEntry) (now : ℤ) : Bool :=
  match db with
  | some e => now - e.timestamp < CACHE_EXPIRATION
  | none => false

/-- Embeds `getTokenPrice(mint)` of price-oracle.ts as a function of the state
it reads: the in-memory entry for the mint, the newest persistent row for the
mint, the origin API outcome (`none` embeds a failed/unreachable fetch), and
the clock.  Lookup order follows the source: fresh in-memory slot, then fresh
persistent row, then the origin fetch; the catch block returns the in-memory
entry of any age when one exists and the default `1.0` otherwise, so the
function is total and never raises. -/
def getTokenPrice (mem db : Option PriceCacheEntry) (origin : Option ℚ)
    (now : ℤ) : PriceLookupResult :=
  let onMemMiss : PriceLookupResult :=
    let onDbMiss : PriceLookupResult :=
      match origin with
      | some price => ⟨price, true⟩
      | none =>
        match mem with
        | some e => ⟨e.price, true⟩
        | none => ⟨1, true⟩
    match db with
    | some e =>
      if now - e.timestamp < CACHE_EXPIRATION then ⟨e.price, false⟩ else onDbMiss
    | none => onDbMiss
  match mem with
  | some e =>
    if now - e.timestamp < CACHE_EXPIRATION then ⟨e.price, false⟩ else onMemMiss
  | none => onMemMiss

/-! ## Portfolio valuator (portfolio.service.ts) -/

/-- Embeds one parsed token account as read from
`getParsedTokenAccountsByOwner`: the mint, the ui-scaled balance
(`tokenAmount.uiAmount`) and the decimals (`tokenAmount.decimals`). -/
structure ParsedTokenAccount where
  mint : String
  uiAmount : ℚ
  decimals : ℕ
  deriving DecidableEq, Repr

/-- Valuation pass of `getPortfolio`: keep the accounts with positive
balance and value each at `value = price * balance`, resolving metadata for
the display fields. -/
def valuedTokens (accounts : List ParsedTokenAccount)
    (metadataOf : String → TokenMetadata) (priceOf : String → ℚ) : List TokenInfo :=
  (accounts.filter (fun a => 0 < a.uiAmount)).map (fun a =>
    let tokenMetadata := metadataOf a.mint
    let price := priceOf a.mint
    let value := price * a.uiAmount
    { symbol := tokenMetadata.symbol
      name := tokenMetadata.name
      mint := a.mint
      decimals := a.decimals
      balance := a.uiAmount
      value := value
      percentage := 0
      icon := tokenMetadata.icon.getD "" : TokenInfo })

/-- Percentage pass of `getPortfolio`:
`token.percentage = totalValue > 0 ? (token.value / totalValue) * 100 : 0`. -/
def withPercentages (tokens : List TokenInfo) (totalValue : ℚ) : List TokenInfo :=
  tokens.map (fun token =>
    { token with
        percentage := if 0 < totalValue then token.value / totalValue * 100 else 0 })

/-- Embeds the non-cached path of `PortfolioService.getPortfolio`, with the
chain read and the metadata/price resolutions supplied as inputs: keep the
accounts with positive balance (`valuedTokens`, which values each holding at
`price * balance`), accumulate `totalValue`, assign percentages
(`withPercentages`), and sort descending by value (the comparator
`(a, b) => b.value - a.value`, embedded as a stable insertion sort). -/
def getPortfolioFresh (accounts : List ParsedTokenAccount)
    (metadataOf : String → TokenMetadata) (priceOf : String → ℚ) : Portfolio :=
  let valued := valuedTokens accounts metadataOf priceOf
  let totalValue := (valued.map (·.value)).sum
  let tokens := withPercentages valued totalValue
  let sorted := tokens.insertionSort (fun a b => b.value ≤ a.value)
  { totalValue := totalValue, tokens := sorted }

/-! ## Liquidation planner and simulation engine (liquidate.service.ts) -/

/-- Embeds the LiquidateOptions interface of liquidate.model.ts; the two
optional fields are embedded as options. -/
structure LiquidateOptions where
  targetToken : String
  includeDust : Bool
  minTokenValueUsd : Option ℚ
  slippageBps : Option ℕ
  deriving DecidableEq, Repr

/-- Embeds the JavaScript expression `options.minTokenValueUsd || 1.0`: the
`||` operator substitutes the default both when the field is absent and when
it equals `0`, because `0` is falsy. -/
def minValueOrDefault (minTokenValueUsd : Option ℚ) : ℚ :=
  match minTokenValueUsd with
  | none => 1
  | some v => if v = 0 then 1 else v

/-- Embeds the token filter callback of
`LiquidateService.createLiquidateTransaction`: skip the target token, and
skip dust tokens (`token.value < (options.minTokenValueUsd || 1.0)`) when
`includeDust` is false. -/
def plannerTokenFilter (options : LiquidateOptions) (token : TokenInfo) : Bool :=
  if token.mint = options.targetToken then false
  else if !options.includeDust && token.value < minValueOrDefault options.minTokenValueUsd then false
  else true

/-- Selection of `tokensToLiquidate` in
`LiquidateService.createLiquidateTransaction`. -/
def plannerSelection (portfolio : Portfolio) (options : LiquidateOptions) :
    List TokenInfo :=
  portfolio.tokens.filter (plannerTokenFilter options)

/-- Embeds the token filter callback of `LiquidateService.simulateLiquidation`
(the same source text as the planner filter, transliterated separately from
its own lines). -/
def simTokenFilter (options : LiquidateOptions) (token : TokenInfo) : Bool :=
  if token.mint = options.targetToken then false
  else if !options.includeDust && token.value < minValueOrDefault options.minTokenValueUsd then false
  else true

/-- Selection of `tokensToLiquidate` in `LiquidateService.simulateLiquidation`. -/
def simSelection (portfolio : Portfolio) (options : LiquidateOptions) :
    List TokenInfo :=
  portfolio.tokens.filter (simTokenFilter options)

/-- Embeds the fields of the JupiterQuoteResponse interface that the core
reads: raw output amount, its decimals, the raw fee amount, and the
worst-case minimum output (`otherAmountThreshold`, documented in
jupiter.model.ts as the minimum output amount in raw units). -/
structure JupiterQuoteResponse where
  inputMint : String
  outputMint : String
  inAmount : ℕ
  outAmount : ℕ
  otherAmountThreshold : ℕ
  outputDecimals : ℕ
  feeAmount : ℕ
  deriving DecidableEq, Repr

/-- Embeds the sequential per-token quote loop shared by the planner and the
simulation: one quote request per selected token, in selection order; any
failed request aborts the whole operation (the source awaits each call inside
a try block whose catch rethrows). -/
def collectQuotes (quoteFn : TokenInfo → Option JupiterQuoteResponse) :
    List TokenInfo → Option (List JupiterQuoteResponse)
  | [] => some []
  | t :: ts =>
    match quoteFn t, collectQuotes quoteFn ts with
    | some q, some qs => some (q :: qs)
    | _, _ => none

/-- Embeds `Number.parseFloat(quote.outAmount) / Math.pow(10, quote.outputDecimals)`. -/
def quoteOutDecimal (quote : JupiterQuoteResponse) : ℚ :=
  (quote.outAmount : ℚ) / 10 ^ quote.outputDecimals

/-- Embeds `Number.parseFloat(quote.feeAmount) / Math.pow(10, quote.outputDecimals)`. -/
def quoteFeeDecimal (quote : JupiterQuoteResponse) : ℚ :=
  (quote.feeAmount : ℚ) / 10 ^ quote.outputDecimals

/-- Embeds `const porgFee = totalOutputAmount * 0.01` of
`LiquidateService.simulateLiquidation` (the 1% protocol fee). -/
def simPorgFee (totalOutputAmount : ℚ) : ℚ :=
  totalOutputAmount * 0.01

/-- Embeds `const finalOutputAmount = totalOutputAmount - porgFee` of
`LiquidateService.simulateLiquidation`. -/
def simFinalOutputAmount (totalOutputAmount : ℚ) : ℚ :=
  totalOutputAmount - simPorgFee totalOutputAmount

/-- Embeds the SimulationResult interface of liquidate.model.ts. -/
structure SimulationResult where
  inputTokens : List TokenInfo
  totalInputValue : ℚ
  targetToken : String
  totalOutputAmount : ℚ
  jupiterFees : ℚ
  porgFee : ℚ
  finalOutputAmount : ℚ
  quotes : List JupiterQuoteResponse
  deriving DecidableEq, Repr

/-- Embeds `LiquidateService.simulateLiquidation` given the portfolio of the
wallet and the quote collaborator: filter the tokens, sum their USD values,
fetch one quote per token accumulating decimal-scaled output and fee totals,
apply the 1% fee, and return the preview.  The enclosing try/catch rethrows
every failure as the generic `Error("Failed to simulate liquidation")`. -/
def simulateLiquidation (portfolio : Portfolio) (options : LiquidateOptions)
    (quoteFn : TokenInfo → Option JupiterQuoteResponse) :
    Except String SimulationResult :=
  let tokensToLiquidate := simSelection portfolio options
  let totalInputValue := (tokensToLiquidate.map (·.value)).sum
  match collectQuotes quoteFn tokensToLiquidate with
  | none => .error "Failed to simulate liquidation"
  | some quotes =>
    let totalOutputAmount := (quotes.map quoteOutDecimal).sum
    let totalFees := (quotes.map quoteFeeDecimal).sum
    .ok
      { inputTokens := tokensToLiquidate
        totalInputValue := totalInputValue
        targetToken := options.targetToken
        totalOutputAmount := totalOutputAmount
        jupiterFees := totalFees
        porgFee := simPorgFee totalOutputAmount
        finalOutputAmount := simFinalOutputAmount totalOutputAmount
        quotes := quotes }

/-- Embeds the `minOutputAmount` computation of
`createPorgBatchLiquidateInstruction` in program-instructions.ts:
`jupiterRoutes.reduce((sum, route) => sum + BigInt(route.outAmount), 0n)`.
Note that the source sums `outAmount`, not `otherAmountThreshold`, and then
never serializes the value into the instruction data. -/
def instructionMinOutputAmount (jupiterRoutes : List JupiterQuoteResponse) : ℕ :=
  (jupiterRoutes.map (·.outAmount)).sum

/-- Sum of the worst-case quote thresholds, the aggregate the specification
describes for downstream slippage protection. -/
def thresholdSum (quotes : List JupiterQuoteResponse) : ℕ :=
  (quotes.map (·.otherAmountThreshold)).sum

/-- Observable outcome of `LiquidateService.createLiquidateTransaction`: the
selected tokens, the quotes gathered in selection order, and the aggregate
`minOutputAmount` computed for the batch liquidate instruction. -/
structure LiquidatePlan where
  tokensToLiquidate : List TokenInfo
  jupiterRoutes : List JupiterQuoteResponse
  minOutputAmount : ℕ
  deriving DecidableEq, Repr

/-- Embeds `LiquidateService.createLiquidateTransaction` given the portfolio,
the quote collaborator and the target token account lookup (`none` embeds a
failed `findTokenAccount`): filter the tokens, throw
`Error("No tokens to liquidate")` when nothing is selected, gather one quote
per token, resolve the receiving account, and build the batch instruction.
The enclosing try/catch rethrows every failure — including the empty
selection — as the generic `Error("Failed to create liquidation
transaction")`. -/
def createLiquidateTransaction (portfolio : Portfolio)
    (options : LiquidateOptions)
    (quoteFn : TokenInfo → Option JupiterQuoteResponse)
    (targetTokenAccount : Option String) : Except String LiquidatePlan :=
  let attempt : Except String LiquidatePlan :=
    let tokensToLiquidate := plannerSelection portfolio options
    if tokensToLiquidate.isEmpty then .error "No tokens to liquidate"
    else
      match collectQuotes quoteFn tokensToLiquidate with
      | none => .error "Failed to create Jupiter swap transaction"
      | some jupiterRoutes =>
        match targetTokenAccount with
        | none => .error "Failed to find token account"
        | some _ =>
          .ok
            { tokensToLiquidate := tokensToLiquidate
              jupiterRoutes := jupiterRoutes
              minOutputAmount := instructionMinOutputAmount jupiterRoutes }
  match attempt with
  | .ok plan => .ok plan
  | .error _ => .error "Failed to create liquidation transaction"

/-- Modelled from the spec: the fee model the executable plan of the Planner
embodies.  The fee collection itself happens inside the on-chain porg program
(absent from this repository; the backend only assembles the instruction),
and the spec fixes it as `porgFee = grossOutput * feeRate` with `feeRate` a
fixed protocol constant of 1%, `netOutput = grossOutput - porgFee`. -/
def plannerFeeRate : ℚ := 1 / 100

/-- Modelled from the spec: protocol fee of the plan at a given gross output. -/
def plannerPorgFee (grossOutput : ℚ) : ℚ := grossOutput * plannerFeeRate

/-- Modelled from the spec: net output of the plan at a given gross output. -/
def plannerNetOutput (grossOutput : ℚ) : ℚ := grossOutput - plannerPorgFee grossOutput

/-! ## Transaction classifier and history store (transaction-parser.ts,
transaction.service.ts, schema part_000) -/

/-- Embeds the TransactionType enum of transaction.model.ts. -/
inductive TransactionType where
  | liquidate
  | bridge
  | liquidate_and_bridge
  | unknown
  deriving DecidableEq, Repr

/-- Embeds the fields of a finalized `ParsedTransactionWithMeta` that the
classifier reads: the program ids referenced by the message instructions. -/
structure FinalizedTransaction where
  instructionProgramIds : List String
  deriving DecidableEq, Repr

/-- Embeds the porg program id constant of transaction-parser.ts. -/
def PORG_PROGRAM_ID : String := "Porg111111111111111111111111111111111111111"

/-- Embeds the wormhole token bridge program id checked by
`parsePorgTransaction`. -/
def WORMHOLE_TOKEN_BRIDGE_ID : String := "wormDTUJ6AWPNvk59vGQbDvGJmqbDTdgWgAqcLBCgUb"

/-- Embeds `isPorgTransaction`: some instruction references the porg program. -/
def isPorgTransaction (transaction : FinalizedTransaction) : Bool :=
  transaction.instructionProgramIds.any (· = PORG_PROGRAM_ID)

/-- Embeds the type component of `parsePorgTransaction`: a transaction whose
instructions also reference the wormhole token bridge program classifies as
`liquidate_and_bridge`, otherwise as `liquidate`. -/
def parsePorgTransactionType (transaction : FinalizedTransaction) : TransactionType :=
  if transaction.instructionProgramIds.any (· = WORMHOLE_TOKEN_BRIDGE_ID) then
    TransactionType.liquidate_and_bridge
  else
    TransactionType.liquidate

/-- Embeds the classification step of
`TransactionService.getTransactionDetails`: a transaction without a porg
instruction is recorded with type `unknown` and no further parsing occurs;
otherwise the type comes from `parsePorgTransactionType`. -/
def classifyTransactionType (transaction : FinalizedTransaction) : TransactionType :=
  if isPorgTransaction transaction then parsePorgTransactionType transaction
  else TransactionType.unknown

/-- Embeds the fields of TransactionDetails that `saveTransactionToDb`
persists. -/
structure TransactionDetails where
  id : String
  type : TransactionType
  timestamp : String
  status : String
  fee : ℚ
  deriving DecidableEq, Repr

/-- Embeds one row of the `transactions` table of the schema, whose primary
key is `signature`. -/
structure DbTransaction where
  signature : String
  walletAddress : String
  type : TransactionType
  status : String
  fee : ℚ
  timestamp : String
  createdAt : String
  deriving DecidableEq, Repr

/-- Row built by `saveTransactionToDb` from the classified transaction. -/
def rowOfTransaction (transaction : TransactionDetails) (walletAddress createdAt : String) :
    DbTransaction :=
  { signature := transaction.id
    walletAddress := walletAddress
    type := transaction.type
    status := transaction.status
    fee := transaction.fee
    timestamp := transaction.timestamp
    createdAt := createdAt }

/-- Embeds the supabase `upsert` on the `transactions` table: the conflict
target is the primary key `signature`, so a row with a present key replaces
the existing row in place and a row with a fresh key is appended. -/
def upsertTransaction (store : List DbTransaction) (row : DbTransaction) :
    List DbTransaction :=
  if store.any (fun r => r.signature = row.signature) then
    store.map (fun r => if r.signature = row.signature then row else r)
  else
    store ++ [row]

/-- Embeds `TransactionService.saveTransactionToDb`: build the row and upsert
it keyed by signature. -/
def saveTransactionToDb (store : List DbTransaction)
    (transaction : TransactionDetails) (walletAddress createdAt : String) :
    List DbTransaction :=
  upsertTransaction store (rowOfTransaction transaction walletAddress createdAt)

/-- Key column of the `transactions` table: the signatures of the stored
rows, in storage order. -/
def sigKeys (store : List DbTransaction) : List String :=
  store.map (·.signature)

/-! ## Concrete fixtures used by closed witnesses and counterexamples -/

/-- Fixture: the rational one half, given by its reduced fraction so that
kernel evaluation of comparisons on it succeeds. -/
def halfUsd : ℚ := ⟨1, 2, by decide, by decide⟩

/-- Fixture: a 0.50 USD holding, the dust example of the spec. -/
def dustToken : TokenInfo :=
  { symbol := "DUST", name := "Dust", mint := "DustMint", decimals := 6
    balance := 50, value := halfUsd, percentage := 0, icon := "" }

/-- Fixture: a portfolio holding only the dust token. -/
def dustPortfolio : Portfolio :=
  { totalValue := halfUsd, tokens := [dustToken] }

/-- Fixture: a 5 USD SOL holding. -/
def solToken : TokenInfo :=
  { symbol := "SOL", name := "Solana", mint := "SolMint", decimals := 9
    balance := 2, value := 5, percentage := 0, icon := "" }

/-- Fixture: a 2 USD USDC holding. -/
def usdcToken : TokenInfo :=
  { symbol := "USDC", name := "USD Coin", mint := "UsdcMint", decimals := 6
    balance := 2, value := 2, percentage := 0, icon := "" }

/-- Fixture: liquidation options targeting USDC with defaults. -/
def optionsToUsdc : LiquidateOptions :=
  { targetToken := "UsdcMint", includeDust := false
    minTokenValueUsd := none, slippageBps := none }

/-- Fixture: a quote with a worst-case threshold below its expected output,
as produced by any nonzero slippage tolerance. -/
def slippageQuote : JupiterQuoteResponse :=
  { inputMint := "SolMint", outputMint := "UsdcMint", inAmount := 2000000000
    outAmount := 100, otherAmountThreshold := 95, outputDecimals := 0
    feeAmount := 1 }

/-- Fixture: a portfolio holding only the target token, so that the planner
and simulation selection is empty. -/
def onlyTargetPortfolio : Portfolio :=
  { totalValue := 2, tokens := [usdcToken] }

/-- Fixture: the two-holding portfolio of the fee-arithmetic example of the
spec (5 USD of SOL and 2 USD of USDC). -/
def feeExamplePortfolio : Portfolio :=
  { totalValue := 7, tokens := [solToken, usdcToken] }

/-- Fixture: options converting everything into a fresh target mint. -/
def optionsToTarget : LiquidateOptions :=
  { targetToken := "TgtMint", includeDust := false
    minTokenValueUsd := none, slippageBps := none }

/-- Fixture: quote converting the SOL holding into 5.00 target units. -/
def quoteSolOut : JupiterQuoteResponse :=
  { inputMint := "SolMint", outputMint := "TgtMint", inAmount := 2000000000
    outAmount := 500, otherAmountThreshold := 500, outputDecimals := 2
    feeAmount := 0 }

/-- Fixture: quote converting the USDC holding into 1.95 target units,
bringing the gross output of the example to 6.95. -/
def quoteUsdcOut : JupiterQuoteResponse :=
  { inputMint := "UsdcMint", outputMint := "TgtMint", inAmount := 2000000
    outAmount := 195, otherAmountThreshold := 195, outputDecimals := 2
    feeAmount := 0 }

/-- Fixture: quote collaborator serving the two example quotes. -/
def feeExampleQuoteFn (token : TokenInfo) : Option JupiterQuoteResponse :=
  if token.mint = "SolMint" then some quoteSolOut else some quoteUsdcOut

/-- Fixture: the simulation result of the fee-arithmetic example. -/
def feeExampleResult : SimulationResult :=
  { inputTokens := [solToken, usdcToken]
    totalInputValue := 7
    targetToken := "TgtMint"
    totalOutputAmount := 6.95
    jupiterFees := 0
    porgFee := 0.0695
    finalOutputAmount := 6.8805
    quotes := [quoteSolOut, quoteUsdcOut] }

/-- Fixture: token accounts for the valuator witness. -/
def witnessAccounts : List ParsedTokenAccount :=
  [{ mint := "SolMint", uiAmount := 2, decimals := 9 },
   { mint := "UsdcMint", uiAmount := 1, decimals := 6 }]

/-- Fixture: metadata resolver for the valuator witness. -/
def witnessMetadataOf (_ : String) : TokenMetadata :=
  { symbol := "UNKNOWN", name := "Unknown", icon := none, decimals := 9 }

/-- Fixture: price resolver for the valuator witness (2 USD per unit). -/
def witnessPriceOf (_ : String) : ℚ := 2

/-- Fixture: a classified liquidate transaction record. -/
def txFixture : TransactionDetails :=
  { id := "Sig1", type := TransactionType.liquidate, timestamp := "t0"
    status := "confirmed", fee := 0 }

end Porg

namespace Porg

/-! ## Theorems about the price oracle -/

/-- Claim C6: a price lookup whose in-memory or persistent entry is younger than the
5-minute freshness window never reaches the origin price API, and a lookup
for which every cached entry is stale (or absent) always reaches it: the
origin is invoked exactly when both cache layers miss. -/
theorem price_cache_freshness_origin (mem db : Option PriceCacheEntry)
    (origin : Option ℚ) (now : ℤ) :
    (getTokenPrice mem db origin now).originInvoked =
      (!memFresh mem now && !dbFresh db now) := by
  unfold getTokenPrice memFresh dbFresh
  cases mem with
  | some e =>
    cases db with
    | some e2 =>
      by_cases h1 : now - e.timestamp < CACHE_EXPIRATION <;>
        by_cases h2 : now - e2.timestamp < CACHE_EXPIRATION <;>
          cases origin <;> simp [h1, h2]
    | none =>
      by_cases h1 : now - e.timestamp < CACHE_EXPIRATION <;>
        cases origin <;> simp [h1]
  | none =>
    cases db with
    | some e2 =>
      by_cases h2 : now - e2.timestamp < CACHE_EXPIRATION <;>
        cases origin <;> simp [h2]
    | none => cases origin <;> simp

/-- Closed instance of `price_cache_freshness_origin`: a fresh in-memory entry
(aged 1000 ms) suppresses the origin call, and a fully stale state (entries
aged well beyond 300000 ms) reaches it. -/
theorem price_cache_freshness_origin_witness :
    (getTokenPrice (some ⟨3, 0⟩) none (some 7) 1000).originInvoked = false ∧
    (getTokenPrice (some ⟨3, 0⟩) (some ⟨4, 0⟩) (some 7) 1000000).originInvoked = true := by
  refine ⟨?_, ?_⟩
  · rw [price_cache_freshness_origin]; decide
  · rw [price_cache_freshness_origin]; decide

/-- Claim C5: when the lookup actually falls through to the origin fetch (both cache
layers stale or absent, embedded as the persistent row not being fresh; a
fresh in-memory slot trivially returns its own value) and the fetch fails,
`getTokenPrice` returns the in-memory entry of any age when one exists, and
the default price `1.0` when none does; it returns a value on every such path
rather than raising. -/
theorem price_fallback_stale_memory (mem db : Option PriceCacheEntry)
    (now : ℤ) (hdb : dbFresh db now = false) :
    (∀ e, mem = some e → (getTokenPrice mem db none now).price = e.price) ∧
    (mem = none → (getTokenPrice mem db none now).price = 1) := by
  constructor
  · rintro e rfl
    unfold getTokenPrice
    unfold dbFresh at hdb
    by_cases h1 : now - e.timestamp < CACHE_EXPIRATION
    · simp [h1]
    · cases db with
      | some e2 =>
        simp only [decide_eq_false_iff_not, not_lt] at hdb
        simp [h1, if_neg (not_lt.mpr hdb)]
      | none => simp [h1]
  · rintro rfl
    unfold getTokenPrice
    unfold dbFresh at hdb
    cases db with
    | some e2 =>
      simp only [decide_eq_false_iff_not, not_lt] at hdb
      simp [if_neg (not_lt.mpr hdb)]
    | none => simp

/-- Closed instance of `price_fallback_stale_memory`: with a stale in-memory
entry priced 7/2, no persistent row, and a failing origin, the lookup returns
7/2; with no cache at all it returns 1. -/
theorem price_fallback_stale_memory_witness :
    (getTokenPrice (some ⟨7/2, 0⟩) none none 1000000).price = 7/2 ∧
    (getTokenPrice none none none 1000000).price = 1 := by
  constructor
  · exact (price_fallback_stale_memory (some ⟨7/2, 0⟩) none 1000000 (by decide)).1 _ rfl
  · exact (price_fallback_stale_memory none none 1000000 (by decide)).2 rfl

/-! ## Theorems about the portfolio valuator -/

/-- Helper: the percentage pass leaves the value column unchanged. -/
theorem withPercentages_map_value (tokens : List TokenInfo) (totalValue : ℚ) :
    (withPercentages tokens totalValue).map (·.value) = tokens.map (·.value) := by
  unfold withPercentages
  rw [List.map_map]
  exact List.map_congr_left (fun t _ => rfl)

/-- Helper: the percentage column after the percentage pass. -/
theorem withPercentages_map_percentage (tokens : List TokenInfo) (totalValue : ℚ) :
    (withPercentages tokens totalValue).map (·.percentage) =
      tokens.map (fun t => if 0 < totalValue then t.value / totalValue * 100 else 0) := by
  unfold withPercentages
  rw [List.map_map]
  exact List.map_congr_left (fun t _ => rfl)

/-- Helper: sum of the percentage formula over a token list. -/
theorem sum_map_value_div (l : List TokenInfo) (T : ℚ) :
    (l.map (fun t => t.value / T * 100)).sum = (l.map (·.value)).sum / T * 100 := by
  induction l with
  | nil => simp
  | cons a l ih => simp [ih, add_div, add_mul]

/-- Claim C1: for every portfolio produced by the non-cached path of
`getPortfolio`, the holding values sum to `totalValue` within the 1e-6
tolerance, the percentages sum to 100 within 1e-6 whenever `totalValue > 0`,
and every percentage is 0 when `totalValue` is 0 (in the exact rational
embedding the sums are exact). -/
theorem portfolio_sums_invariant (accounts : List ParsedTokenAccount)
    (metadataOf : String → TokenMetadata) (priceOf : String → ℚ) :
    |((getPortfolioFresh accounts metadataOf priceOf).tokens.map (·.value)).sum -
        (getPortfolioFresh accounts metadataOf priceOf).totalValue| ≤ 1 / 1000000 ∧
    (0 < (getPortfolioFresh accounts metadataOf priceOf).totalValue →
      |((getPortfolioFresh accounts metadataOf priceOf).tokens.map (·.percentage)).sum -
          100| ≤ 1 / 1000000) ∧
    ((getPortfolioFresh accounts metadataOf priceOf).totalValue = 0 →
      ∀ t ∈ (getPortfolioFresh accounts metadataOf priceOf).tokens, t.percentage = 0) := by
  set valued := valuedTokens accounts metadataOf priceOf with hv
  set T := (valued.map (·.value)).sum with hT
  have hperm := List.perm_insertionSort (fun a b => b.value ≤ a.value) (withPercentages valued T)
  refine ⟨?_, ?_, ?_⟩
  · have hsum : (((withPercentages valued T).insertionSort
        (fun a b => b.value ≤ a.value)).map (·.value)).sum = T := by
      rw [(hperm.map (·.value)).sum_eq, withPercentages_map_value]
    show |(((withPercentages valued T).insertionSort
        (fun a b => b.value ≤ a.value)).map (·.value)).sum - T| ≤ 1 / 1000000
    rw [hsum]
    norm_num
  · intro hpos
    have hpos2 : 0 < T := hpos
    have hsum : (((withPercentages valued T).insertionSort
        (fun a b => b.value ≤ a.value)).map (·.percentage)).sum = 100 := by
      rw [(hperm.map (·.percentage)).sum_eq, withPercentages_map_percentage]
      simp only [if_pos hpos2]
      rw [sum_map_value_div, ← hT, div_self (ne_of_gt hpos2), one_mul]
    show |(((withPercentages valued T).insertionSort
        (fun a b => b.value ≤ a.value)).map (·.percentage)).sum - 100| ≤ 1 / 1000000
    rw [hsum]
    norm_num
  · intro hzero t ht
    have hT0 : T = 0 := hzero
    have ht2 : t ∈ withPercentages valued T := hperm.mem_iff.mp ht
    unfold withPercentages at ht2
    obtain ⟨s, _, rfl⟩ := List.mem_map.mp ht2
    show (if 0 < T then s.value / T * 100 else 0) = 0
    rw [hT0]
    simp

/-- Closed instance of `portfolio_sums_invariant`: for a two-account wallet
holding 2 units and 1 unit at price 2, the total value is positive and the
percentages sum to 100 within tolerance. -/
theorem portfolio_sums_invariant_witness :
    0 < (getPortfolioFresh witnessAccounts witnessMetadataOf witnessPriceOf).totalValue ∧
    |((getPortfolioFresh witnessAccounts witnessMetadataOf
        witnessPriceOf).tokens.map (·.percentage)).sum - 100| ≤ 1 / 1000000 := by
  have hpos : 0 < (getPortfolioFresh witnessAccounts witnessMetadataOf
      witnessPriceOf).totalValue := by
    show (0 : ℚ) < ((valuedTokens witnessAccounts witnessMetadataOf
      witnessPriceOf).map (·.value)).sum
    norm_num [valuedTokens, witnessAccounts, witnessPriceOf, witnessMetadataOf]
  exact ⟨hpos,
    (portfolio_sums_invariant witnessAccounts witnessMetadataOf witnessPriceOf).2.1 hpos⟩

/-! ## Theorems about the simulation engine -/

/-- Claim C2: every successful simulation reports a gross output equal to the sum
of the decimal-scaled quote outputs, a protocol fee of exactly 1% of the
gross output, and a net output of gross minus fee; in particular a gross
output of 6.95 yields a fee of 0.0695 and a net output of 6.8805, within the
1e-6 tolerance. -/
theorem simulate_fee_arithmetic (portfolio : Portfolio)
    (options : LiquidateOptions)
    (quoteFn : TokenInfo → Option JupiterQuoteResponse)
    (result : SimulationResult)
    (h : simulateLiquidation portfolio options quoteFn = .ok result) :
    result.totalOutputAmount = (result.quotes.map quoteOutDecimal).sum ∧
    result.porgFee = result.totalOutputAmount * 0.01 ∧
    result.finalOutputAmount = result.totalOutputAmount - result.porgFee ∧
    (result.totalOutputAmount = 6.95 →
      |result.porgFee - 0.0695| ≤ 1 / 1000000 ∧
      |result.finalOutputAmount - 6.8805| ≤ 1 / 1000000) := by
  simp only [simulateLiquidation] at h
  cases hq : collectQuotes quoteFn (simSelection portfolio options) with
  | none => rw [hq] at h; exact absurd h (by simp)
  | some quotes =>
    rw [hq] at h
    simp only [Except.ok.injEq] at h
    subst h
    refine ⟨rfl, rfl, rfl, ?_⟩
    intro h695
    have h695s : (quotes.map quoteOutDecimal).sum = 6.95 := h695
    constructor
    · show |simPorgFee (quotes.map quoteOutDecimal).sum - 0.0695| ≤ 1 / 1000000
      rw [h695s]
      norm_num [simPorgFee]
    · show |simFinalOutputAmount (quotes.map quoteOutDecimal).sum - 6.8805| ≤ 1 / 1000000
      rw [h695s]
      norm_num [simFinalOutputAmount, simPorgFee]

/-- Closed instance of `simulate_fee_arithmetic` on the example of the spec:
holdings of 5 and 2 USD quoted into a gross output of 6.95 produce a fee of
0.0695 and a net output of 6.8805. -/
theorem simulate_fee_arithmetic_witness :
    |feeExampleResult.porgFee - 0.0695| ≤ 1 / 1000000 ∧
    |feeExampleResult.finalOutputAmount - 6.8805| ≤ 1 / 1000000 := by
  have h : simulateLiquidation feeExamplePortfolio optionsToTarget feeExampleQuoteFn =
      .ok feeExampleResult := by
    have hsel : simSelection feeExamplePortfolio optionsToTarget = [solToken, usdcToken] := by
      decide
    have hque : collectQuotes feeExampleQuoteFn [solToken, usdcToken] =
        some [quoteSolOut, quoteUsdcOut] := by decide
    simp only [simulateLiquidation, hsel, hque, Except.ok.injEq, SimulationResult.mk.injEq]
    norm_num [quoteOutDecimal, quoteFeeDecimal, simPorgFee, simFinalOutputAmount,
      solToken, usdcToken, quoteSolOut, quoteUsdcOut, feeExampleResult, optionsToTarget]
  exact (simulate_fee_arithmetic feeExamplePortfolio optionsToTarget feeExampleQuoteFn
    feeExampleResult h).2.2.2 (by norm_num [feeExampleResult])

/-! ## Theorems about the planner selection -/

/-- Helper: characterization of the planner token filter. -/
theorem plannerTokenFilter_eq_true_iff (options : LiquidateOptions) (token : TokenInfo) :
    plannerTokenFilter options token = true ↔
      token.mint ≠ options.targetToken ∧
        (options.includeDust = true ∨
          minValueOrDefault options.minTokenValueUsd ≤ token.value) := by
  unfold plannerTokenFilter
  split_ifs with h1 h2
  · simp [h1]
  · simp only [Bool.and_eq_true, Bool.not_eq_true', decide_eq_true_eq] at h2
    simp [h1, h2.1, not_le.mpr h2.2]
  · simp only [Bool.and_eq_true, Bool.not_eq_true', decide_eq_true_eq, not_and,
      not_lt] at h2
    by_cases hd : options.includeDust = true
    · simp [h1, hd]
    · have hd2 : options.includeDust = false := by
        revert hd
        cases options.includeDust <;> simp
      simp [h1, hd2, h2 hd2]

/-- Claim C3 as amended: the selection of the Planner keeps exactly the non-target
holdings whose value reaches the effective dust threshold, where the
effective threshold is `minDustValue` when that option is supplied and
nonzero, and the default 1.0 when it is omitted or equal to 0 (the
JavaScript `||` default also fires on a supplied 0); with `includeDust` true,
every non-target holding is kept.  In particular the 0.50 USD holding with
the default threshold is excluded when `includeDust` is false and included
when it is true. -/
theorem planner_dust_filter_amended :
    (∀ (portfolio : Portfolio) (options : LiquidateOptions) (t : TokenInfo),
      t ∈ plannerSelection portfolio options ↔
        t ∈ portfolio.tokens ∧ t.mint ≠ options.targetToken ∧
          (options.includeDust = true ∨
            minValueOrDefault options.minTokenValueUsd ≤ t.value)) ∧
    (dustToken ∉ plannerSelection dustPortfolio
        { targetToken := "UsdcMint", includeDust := false
          minTokenValueUsd := none, slippageBps := none } ∧
      dustToken ∈ plannerSelection dustPortfolio
        { targetToken := "UsdcMint", includeDust := true
          minTokenValueUsd := none, slippageBps := none }) := by
  refine ⟨fun portfolio options t => ?_, by decide, by decide⟩
  rw [plannerSelection, List.mem_filter, plannerTokenFilter_eq_true_iff]

/-- Closed instance of `planner_dust_filter_amended`: the 5 USD SOL holding
passes the default dust filter targeting USDC. -/
theorem planner_dust_filter_amended_witness :
    solToken ∈ plannerSelection { totalValue := 5, tokens := [solToken] } optionsToUsdc := by
  exact (planner_dust_filter_amended.1 _ _ _).mpr (by decide)

/-- Claim C3 counterexample: with `includeDust = false` and a supplied
`minDustValue = 0`, the 0.50 USD holding is not below the supplied threshold,
yet the code excludes it — the JavaScript `||` default replaces a supplied 0
with 1.0, so the selection does not exclude exactly the holdings below
`minDustValue`. -/
theorem planner_dust_filter_zero_min_counterexample :
    dustToken.value = 0.5 ∧
    dustToken ∉ plannerSelection dustPortfolio
        { targetToken := "UsdcMint", includeDust := false
          minTokenValueUsd := some 0, slippageBps := none } ∧
      ¬(dustToken.value < 0) ∧ dustToken.mint ≠ "UsdcMint" := by
  refine ⟨?_, by decide, by decide, by decide⟩
  show halfUsd = 0.5
  rw [← Rat.num_div_den halfUsd]
  norm_num [halfUsd]

/-! ## Theorems about the empty-selection behavior -/

/-- Helper: the planner and the simulation compute the same selection (the
two filter callbacks are the same source text). -/
theorem plannerSelection_eq_simSelection (portfolio : Portfolio)
    (options : LiquidateOptions) :
    plannerSelection portfolio options = simSelection portfolio options := rfl

/-- Claim C4 as amended: on an empty selection, `createLiquidateTransaction` throws
`Error("No tokens to liquidate")`, which its enclosing catch-all rewraps into
the generic `Error("Failed to create liquidation transaction")` — the same
error value produced by any upstream failure, so the caller cannot
distinguish the two; `simulateLiquidation` does not fail at all: it returns
a successful result with no input tokens and zero totals.  No NotFoundError
class exists in the code. -/
theorem empty_selection_behavior_amended (portfolio : Portfolio)
    (options : LiquidateOptions)
    (quoteFn : TokenInfo → Option JupiterQuoteResponse)
    (targetTokenAccount : Option String)
    (h : plannerSelection portfolio options = []) :
    createLiquidateTransaction portfolio options quoteFn targetTokenAccount =
      .error "Failed to create liquidation transaction" ∧
    simulateLiquidation portfolio options quoteFn =
      .ok { inputTokens := [], totalInputValue := 0
            targetToken := options.targetToken, totalOutputAmount := 0
            jupiterFees := 0, porgFee := 0, finalOutputAmount := 0
            quotes := [] } := by
  have hsim : simSelection portfolio options = [] := by
    rw [← plannerSelection_eq_simSelection]
    exact h
  constructor
  · simp [createLiquidateTransaction, h]
  · simp only [simulateLiquidation, hsim, collectQuotes, List.map_nil, List.sum_nil,
      Except.ok.injEq, SimulationResult.mk.injEq]
    norm_num [simPorgFee, simFinalOutputAmount]

/-- Closed instance of `empty_selection_behavior_amended` on a portfolio that
holds only the target token. -/
theorem empty_selection_behavior_amended_witness :
    createLiquidateTransaction onlyTargetPortfolio optionsToUsdc (fun _ => none) none =
      .error "Failed to create liquidation transaction" :=
  (empty_selection_behavior_amended onlyTargetPortfolio optionsToUsdc
    (fun _ => none) none (by decide)).1

/-- Claim C4 counterexample: with a wallet holding only the target token (empty
selection), the simulation succeeds instead of failing, and the planner
fails with the same generic error value that an upstream quote failure
produces (shown on a 5 USD SOL portfolio with a failing quote collaborator),
so neither fails with a NotFoundError distinct from upstream unavailability. -/
theorem empty_selection_not_notfound_counterexample :
    simulateLiquidation onlyTargetPortfolio optionsToUsdc (fun _ => none) =
      .ok { inputTokens := [], totalInputValue := 0
            targetToken := "UsdcMint", totalOutputAmount := 0
            jupiterFees := 0, porgFee := 0, finalOutputAmount := 0
            quotes := [] } ∧
    createLiquidateTransaction onlyTargetPortfolio optionsToUsdc (fun _ => none)
        (some "TargetAccount") =
      .error "Failed to create liquidation transaction" ∧
    createLiquidateTransaction { totalValue := 5, tokens := [solToken] } optionsToUsdc
        (fun _ => none) (some "TargetAccount") =
      .error "Failed to create liquidation transaction" := by
  refine ⟨?_, ?_, ?_⟩
  · have hsim : simSelection onlyTargetPortfolio optionsToUsdc = [] := by decide
    simp only [simulateLiquidation, hsim, collectQuotes, List.map_nil, List.sum_nil,
      Except.ok.injEq, SimulationResult.mk.injEq]
    norm_num [simPorgFee, simFinalOutputAmount, optionsToUsdc]
  · have hsel : plannerSelection onlyTargetPortfolio optionsToUsdc = [] := by decide
    simp [createLiquidateTransaction, hsel]
  · have hsel : plannerSelection { totalValue := 5, tokens := [solToken] } optionsToUsdc =
        [solToken] := by decide
    simp [createLiquidateTransaction, hsel, collectQuotes]

/-! ## Theorem about the batch instruction minimum output (code bug) -/

/-- Claim C7, evaluated at the failing input: for a single quote with expected
output 100 and worst-case threshold 95, `createPorgBatchLiquidateInstruction`
computes a minimum aggregate output of 100 — the sum of the expected
`outAmount` fields — rather than the 95 that the sum of the worst-case
`otherAmountThreshold` fields gives, so the computed floor provides no
slippage protection (and the value is additionally never serialized into the
instruction data). -/
theorem min_output_ignores_threshold :
    instructionMinOutputAmount [slippageQuote] = 100 ∧
    thresholdSum [slippageQuote] = 95 ∧
    instructionMinOutputAmount [slippageQuote] ≠ thresholdSum [slippageQuote] := by
  decide

/-! ## Theorems about planner/simulation refinement -/

/-- Claim C8: the simulation engine uses the same selection predicate as the
planner — the two filter callbacks agree on every option set and token, so
the two selections agree on every portfolio — and its fee arithmetic is the
1%-of-gross, net-equals-gross-minus-fee formula that the plan of the Planner
embodies (the fee model fixed by the protocol, modelled from the spec since
fee collection happens inside the on-chain program). -/
theorem simulation_matches_planner :
    (∀ (options : LiquidateOptions) (token : TokenInfo),
      plannerTokenFilter options token = simTokenFilter options token) ∧
    (∀ (portfolio : Portfolio) (options : LiquidateOptions),
      plannerSelection portfolio options = simSelection portfolio options) ∧
    (∀ grossOutput : ℚ,
      simPorgFee grossOutput = plannerPorgFee grossOutput ∧
      simFinalOutputAmount grossOutput = plannerNetOutput grossOutput) := by
  refine ⟨fun _ _ => rfl, fun _ _ => rfl, fun grossOutput => ⟨?_, ?_⟩⟩
  · unfold simPorgFee plannerPorgFee plannerFeeRate
    norm_num
  · unfold simFinalOutputAmount plannerNetOutput simPorgFee plannerPorgFee plannerFeeRate
    norm_num

/-- Closed instance of `simulation_matches_planner` at gross output 5. -/
theorem simulation_matches_planner_witness :
    simPorgFee 5 = plannerPorgFee 5 ∧
    plannerSelection feeExamplePortfolio optionsToTarget =
      simSelection feeExamplePortfolio optionsToTarget :=
  ⟨(simulation_matches_planner.2.2 5).1,
    simulation_matches_planner.2.1 feeExamplePortfolio optionsToTarget⟩

/-! ## Theorems about the transaction history store -/

/-- Helper: effect of an upsert on the key column — a present key leaves the
keys unchanged, a fresh key is appended. -/
theorem sigKeys_upsertTransaction (store : List DbTransaction) (row : DbTransaction) :
    sigKeys (upsertTransaction store row) =
      if row.signature ∈ sigKeys store then sigKeys store
      else sigKeys store ++ [row.signature] := by
  unfold upsertTransaction sigKeys
  by_cases h : (store.any (fun r => r.signature = row.signature)) = true
  · have hmem : row.signature ∈ store.map (·.signature) := by
      simp only [List.any_eq_true, decide_eq_true_eq] at h
      obtain ⟨r, hr, he⟩ := h
      exact List.mem_map.mpr ⟨r, hr, he⟩
    rw [if_pos h, if_pos hmem, List.map_map]
    refine List.map_congr_left (fun r _ => ?_)
    by_cases hx : r.signature = row.signature
    · simp [hx]
    · simp [hx]
  · have hmem : row.signature ∉ store.map (·.signature) := by
      simp only [List.any_eq_true, decide_eq_true_eq] at h
      intro hc
      obtain ⟨r, hr, he⟩ := List.mem_map.mp hc
      exact h ⟨r, hr, he⟩
    rw [if_neg h, if_neg hmem, List.map_append]
    rfl

/-- Helper: after an upsert the key of the upserted row is present. -/
theorem mem_sigKeys_upsertTransaction (store : List DbTransaction) (row : DbTransaction) :
    row.signature ∈ sigKeys (upsertTransaction store row) := by
  rw [sigKeys_upsertTransaction]
  by_cases h : row.signature ∈ sigKeys store
  · rwa [if_pos h]
  · rw [if_neg h]
    exact List.mem_append_right _ (List.mem_singleton.mpr rfl)

/-- Helper: an upsert preserves distinctness of the key column. -/
theorem nodup_sigKeys_upsertTransaction (store : List DbTransaction)
    (row : DbTransaction) (h : (sigKeys store).Nodup) :
    (sigKeys (upsertTransaction store row)).Nodup := by
  rw [sigKeys_upsertTransaction]
  by_cases hm : row.signature ∈ sigKeys store
  · rwa [if_pos hm]
  · rw [if_neg hm]
    simp [List.nodup_append, h, hm]

/-- Claim C9: starting from any store whose key column is duplicate-free (the
primary-key invariant of the `transactions` table), classifying and saving
records with the same signature twice leaves exactly one stored row for that
signature, and the second save does not change the key column at all — the
supabase write is an upsert keyed by signature. -/
theorem transaction_upsert_idempotent (store : List DbTransaction)
    (tx₁ tx₂ : TransactionDetails) (w₁ w₂ c₁ c₂ : String)
    (hsig : tx₁.id = tx₂.id) (hwf : (sigKeys store).Nodup) :
    (sigKeys (saveTransactionToDb (saveTransactionToDb store tx₁ w₁ c₁) tx₂ w₂ c₂)).count
        tx₂.id = 1 ∧
    sigKeys (saveTransactionToDb (saveTransactionToDb store tx₁ w₁ c₁) tx₂ w₂ c₂) =
      sigKeys (saveTransactionToDb store tx₁ w₁ c₁) := by
  have h1mem : tx₂.id ∈ sigKeys (saveTransactionToDb store tx₁ w₁ c₁) := by
    rw [← hsig]
    exact mem_sigKeys_upsertTransaction store (rowOfTransaction tx₁ w₁ c₁)
  have h1nd : (sigKeys (saveTransactionToDb store tx₁ w₁ c₁)).Nodup :=
    nodup_sigKeys_upsertTransaction store (rowOfTransaction tx₁ w₁ c₁) hwf
  have hkeys : sigKeys (saveTransactionToDb (saveTransactionToDb store tx₁ w₁ c₁) tx₂ w₂ c₂) =
      sigKeys (saveTransactionToDb store tx₁ w₁ c₁) := by
    unfold saveTransactionToDb
    rw [sigKeys_upsertTransaction]
    exact if_pos h1mem
  refine ⟨?_, hkeys⟩
  rw [hkeys]
  exact List.count_eq_one_of_mem h1nd h1mem

/-- Closed instance of `transaction_upsert_idempotent`: saving the same
classified transaction twice into an empty store leaves one row. -/
theorem transaction_upsert_idempotent_witness :
    (sigKeys (saveTransactionToDb (saveTransactionToDb [] txFixture "w" "c1")
        txFixture "w" "c2")).count "Sig1" = 1 :=
  (transaction_upsert_idempotent [] txFixture txFixture "w" "w" "c1" "c2" rfl
    (by simp [sigKeys])).1

/-! ## Theorem about the transaction classifier -/

/-- Claim C10: classification only ever produces `liquidate`,
`liquidate_and_bridge` or `unknown`; the enum value `bridge`, although
declared in the TransactionType enum, is never produced. -/
theorem classifier_never_bridge (transaction : FinalizedTransaction) :
    classifyTransactionType transaction ≠ TransactionType.bridge ∧
    (classifyTransactionType transaction = TransactionType.liquidate ∨
      classifyTransactionType transaction = TransactionType.liquidate_and_bridge ∨
      classifyTransactionType transaction = TransactionType.unknown) := by
  unfold classifyTransactionType parsePorgTransactionType
  split_ifs <;> simp

end Porg
